import Mathlib

/-
  Shallow embedding of the observability subsystem of the demo-fastapi
  repository:
    - src/src/observability/__init__.py   (get_provider / reset_provider)
    - src/src/observability/base.py       (interface)
    - src/src/observability/noop_provider.py
    - src/src/observability/sentry_provider.py
    - src/src/datadog.py                  (post_datadog_event route)
    - src/main.py                         (CustomError)
  The Datadog provider implementation (datadog_provider.py) is imported by
  the factory but its file is not present in the source tree; the parts of
  it that claims need are modelled from the spec and marked as such.

  Python effects are embedded explicitly: every vendor-SDK interaction goes
  through an oracle (SdkCall -> Except PyErr PyVal) that may fail
  arbitrarily, and each embedded operation returns an Eff value recording
  the SDK calls made, the log lines emitted, and the result
  (Except.error e models an uncaught Python exception escaping the call).
-/

namespace DemoFastapi

/-- A Python value, as far as the embedded code inspects values:
strings, ints, booleans, None, tuples and lists. -/
inductive PyVal where
  | vStr (s : String)
  | vInt (n : Int)
  | vBool (b : Bool)
  | vNone
  | vTuple (xs : List PyVal)
  | vList (xs : List PyVal)

/-- Structural equality on PyVal (Python == on these shapes). -/
def PyVal.beq : PyVal → PyVal → Bool
  | .vStr a, .vStr b => a == b
  | .vInt a, .vInt b => a == b
  | .vBool a, .vBool b => a == b
  | .vNone, .vNone => true
  | .vTuple a, .vTuple b => beqList a b
  | .vList a, .vList b => beqList a b
  | _, _ => false
where
  beqList : List PyVal → List PyVal → Bool
  | [], [] => true
  | x :: xs, y :: ys => beq x y && beqList xs ys
  | _, _ => false

instance : BEq PyVal := ⟨PyVal.beq⟩

/-- Python str() of a value.  The quoting Python repr applies to strings
nested inside tuples/lists is elided (no claim observes it). -/
def pyStr : PyVal → String
  | .vStr s => s
  | .vInt n => toString n
  | .vBool true => "True"
  | .vBool false => "False"
  | .vNone => "None"
  | .vTuple xs => "(" ++ String.intercalate ", " (pyStrList xs) ++ ")"
  | .vList xs => "[" ++ String.intercalate ", " (pyStrList xs) ++ "]"
where
  pyStrList : List PyVal → List String
  | [] => []
  | x :: xs => pyStr x :: pyStrList xs

/-- Python truthiness of a value. -/
def pyTruthy : PyVal → Bool
  | .vStr s => s != ""
  | .vInt n => n != 0
  | .vBool b => b
  | .vNone => false
  | .vTuple xs => !xs.isEmpty
  | .vList xs => !xs.isEmpty

/-- `isinstance(v, tuple) and len(v) == 2`. -/
def isTuple2 : PyVal → Bool
  | .vTuple [_, _] => true
  | _ => false

/-- First component of a 2-tuple (only used under isTuple2). -/
def tupleFst : PyVal → PyVal
  | .vTuple (a :: _) => a
  | _ => .vNone

/-- Second component of a 2-tuple (only used under isTuple2). -/
def tupleSnd : PyVal → PyVal
  | .vTuple (_ :: b :: _) => b
  | _ => .vNone

/-- The process environment: an association list of variable/value pairs. -/
def Env : Type := List (String × String)

/-- os.getenv(key) -> Optional[str]. -/
def Env.getenv (e : Env) (k : String) : Option String :=
  (List.find? (fun p => p.fst == k) e).map Prod.snd

/-- os.getenv(key, default) -> str. -/
def Env.getenvD (e : Env) (k d : String) : String :=
  (e.getenv k).getD d

/-- Python logging levels used by the embedded code. -/
inductive LogLevel where
  | debug
  | info
  | warning
  | error
  deriving DecidableEq

/-- One emitted log line. -/
structure LogEntry where
  level : LogLevel
  msg : String
  deriving DecidableEq

/-- A Python exception: its class name and its str(). -/
structure PyErr where
  kind : String
  msg : String
  deriving DecidableEq

/-- One interaction with a vendor SDK.  Sentry calls first, then the
Datadog calls used by the spec-modelled Datadog provider. -/
inductive SdkCall where
  | import_sentry_sdk
  | sdk_init (withEnableLogs : Bool) (dsn : Option String)
      (environment : String) (release : String)
      (tracesRate : String) (profilesRate : String)
      (logBreadcrumbLevel : Option Nat) (logEventLevel : Option Nat)
  | set_tag (k v : PyVal)
  | set_context (nm : String) (data : List (PyVal × PyVal))
  | add_breadcrumb (category : String) (message : String) (level : String)
      (data : List (String × PyVal))
  | capture_exception (e : PyVal)
  | capture_message (message : String) (level : String)
      (extras : List (String × PyVal))
  | set_user (data : List (String × PyVal))
  | start_span (op : PyVal) (description : String)
  | end_span
  | dd_current_span
  | dd_span_set_tag (k v : PyVal)
  | dd_post_event (title : String) (text : String)

/-- The vendor SDK oracle: any call may return a value or raise. -/
def SdkOracle : Type := SdkCall → Except PyErr PyVal

/-- The effect of running a piece of embedded Python: the SDK calls made
(in order), the log lines emitted, and the outcome.  An `Except.error`
outcome models an exception escaping the piece of code. -/
structure Eff (α : Type) where
  calls : List SdkCall
  logs : List LogEntry
  result : Except PyErr α

instance : Monad Eff where
  pure a := ⟨[], [], .ok a⟩
  bind x f :=
    match x.result with
    | .error e => ⟨x.calls, x.logs, .error e⟩
    | .ok a =>
      let y := f a
      ⟨x.calls ++ y.calls, x.logs ++ y.logs, y.result⟩

/-- Perform an SDK call, returning its value. -/
def sdkDo (sdk : SdkOracle) (c : SdkCall) : Eff PyVal :=
  ⟨[c], [], sdk c⟩

/-- Perform an SDK call, discarding its value. -/
def sdkDoU (sdk : SdkOracle) (c : SdkCall) : Eff Unit :=
  ⟨[c], [], (sdk c).map (fun _ => ())⟩

/-- Emit a log line. -/
def logE (lv : LogLevel) (m : String) : Eff Unit :=
  ⟨[], [⟨lv, m⟩], .ok ()⟩

/-- Raise an exception. -/
def raiseE {α : Type} (e : PyErr) : Eff α :=
  ⟨[], [], .error e⟩

/-- Lift a pure Except computation (e.g. float() parsing). -/
def liftE {α : Type} (r : Except PyErr α) : Eff α :=
  ⟨[], [], r⟩

/-- Python try/except Exception: run `x`; if it raised, run the handler. -/
def tryCatchE {α : Type} (x : Eff α) (h : PyErr → Eff α) : Eff α :=
  match x.result with
  | .ok _ => x
  | .error e =>
    let y := h e
    ⟨x.calls ++ y.calls, x.logs ++ y.logs, y.result⟩

/-- A Python function of one argument in this embedding: it may make SDK
calls, log, return a value or raise. -/
def PyFun (α β : Type) : Type := α → Eff β

/-! ### String helpers (Python substring test, float() literal check) -/

/-- needle is a prefix of hay (on char lists). -/
def isPrefixL : List Char → List Char → Bool
  | [], _ => true
  | _ :: _, [] => false
  | n :: ns, h :: hs => n == h && isPrefixL ns hs

/-- needle occurs somewhere in hay (on char lists). -/
def containsL (needle : List Char) : List Char → Bool
  | [] => needle.isEmpty
  | h :: hs => isPrefixL needle (h :: hs) || containsL needle hs

/-- Python `needle in hay` on strings. -/
def strContains (hay needle : String) : Bool :=
  containsL needle.toList hay.toList

/-- List.dropWhile, spelled out so it reduces definitionally. -/
def dropWhileL (p : Char → Bool) : List Char → List Char
  | [] => []
  | c :: cs => if p c then dropWhileL p cs else c :: cs

/-- Strip leading and trailing whitespace from a char list. -/
def stripChars (cs : List Char) : List Char :=
  (dropWhileL Char.isWhitespace ((dropWhileL Char.isWhitespace cs).reverse)).reverse

/-- Python str.lower() (ASCII, which is all the configuration values
use). -/
def pyLower (s : String) : String := ⟨s.data.map Char.toLower⟩

/-- Python str.upper() (ASCII). -/
def pyUpper (s : String) : String := ⟨s.data.map Char.toUpper⟩

/-- Python str.strip(). -/
def pyStrip (s : String) : String := ⟨stripChars s.data⟩

/-- Mantissa of a float literal: digits with at most one dot and at least
one digit (accepts "1", "1.", ".5", "1.5"). -/
def floatMantissaAux : List Char → Bool → Bool → Bool
  | [], seenDigit, _ => seenDigit
  | c :: cs, seenDigit, seenDot =>
    if c.isDigit then floatMantissaAux cs true seenDot
    else if c == Char.ofNat 46 && !seenDot then floatMantissaAux cs seenDigit true
    else false

/-- Split a char list at the first exponent marker (lowercased input). -/
def splitAtExp : List Char → List Char × Option (List Char)
  | [] => ([], none)
  | c :: cs =>
    if c == Char.ofNat 101 then ([], some cs)
    else
      let r := splitAtExp cs
      (c :: r.fst, r.snd)

/-- Exponent part: optional sign then nonempty digits. -/
def floatExpOk (cs : List Char) : Bool :=
  let ds := match cs with
    | c :: rest => if c == Char.ofNat 43 || c == Char.ofNat 45 then rest else cs
    | [] => []
  !ds.isEmpty && ds.all Char.isDigit

/-- Does Python float() accept this string?  (strip whitespace, optional
sign, decimal mantissa with optional exponent, or inf/infinity/nan). -/
def pyFloatOk (s : String) : Bool :=
  let t := pyLower (pyStrip s)
  let body := match t.toList with
    | c :: rest => if c == Char.ofNat 43 || c == Char.ofNat 45 then rest else c :: rest
    | [] => []
  if body == "inf".toList || body == "infinity".toList || body == "nan".toList then true
  else
    match splitAtExp body with
    | (m, none) => floatMantissaAux m false false
    | (m, some e) => floatMantissaAux m false false && floatExpOk e

/-- Python float(s).  No claim observes the numeric value, only whether the
conversion raises ValueError, so the validated literal is carried as the
(stripped) string it parsed from. -/
def pyFloat (s : String) : Except PyErr String :=
  if pyFloatOk s then .ok (pyStrip s)
  else .error ⟨"ValueError", "could not convert string to float: " ++ s⟩

/-- Python dict assignment d[k] = v on an insertion-ordered string-keyed
dict: overwrite in place if the key exists, else append. -/
def dictSetS (d : List (String × PyVal)) (k : String) (v : PyVal) :
    List (String × PyVal) :=
  if d.any (fun p => p.fst == k) then
    d.map (fun p => if p.fst == k then (k, v) else p)
  else d ++ [(k, v)]

/-- Python dict.update on insertion-ordered string-keyed dicts. -/
def dictUpdateS (d : List (String × PyVal)) :
    List (String × PyVal) → List (String × PyVal)
  | [] => d
  | (k, v) :: rest => dictUpdateS (dictSetS d k v) rest

/-- kwargs.get(k, default). -/
def kwargsGet (kwargs : List (String × PyVal)) (k : String) (d : PyVal) : PyVal :=
  match List.find? (fun p => p.fst == k) kwargs with
  | some p => p.snd
  | none => d

/-! ### NoopProvider (src/src/observability/noop_provider.py)

Every method body in the source is `pass` (or returns its argument /
yields None); the embedding is correspondingly trivial. -/

/-- NoopProvider.name. -/
def noop_name : String := "noop"

/-- NoopProvider.is_enabled. -/
def noop_is_enabled : Bool := false

/-- NoopProvider.initialize(): `pass`. -/
def noop_init : Eff Unit := pure ()

/-- NoopProvider.trace_decorator(name, **kwargs): returns a decorator that
returns its function unmodified; fused here with the decorator
application. -/
def noop_trace_decorator {α β : Type} (_nm : String)
    (_kwargs : List (String × PyVal)) (f : PyFun α β) : PyFun α β := f

/-- NoopProvider.trace_context(name, **kwargs): `yield None`.  The block
of the with-statement is passed explicitly and receives the yielded
value. -/
def noop_trace_context {β : Type} (_nm : String)
    (_kwargs : List (String × PyVal)) (block : Option PyVal → Eff β) : Eff β :=
  block none

/-- NoopProvider.record_error: `pass`. -/
def noop_record_error (_exc : PyVal) (_errorType : Option String)
    (_tags : Option (List (PyVal × PyVal)))
    (_context : Option (List (PyVal × PyVal))) : Eff Unit := pure ()

/-- NoopProvider.record_event: `pass`. -/
def noop_record_event (_title _text _alertType : String)
    (_tags : Option (List String)) (_kwargs : List (String × PyVal)) :
    Eff Unit := pure ()

/-- NoopProvider.set_user_context: `pass`. -/
def noop_set_user_context (_userId : String)
    (_kwargs : List (String × PyVal)) : Eff Unit := pure ()

/-- NoopProvider.add_tags: `pass`. -/
def noop_add_tags (_tags : List (PyVal × PyVal)) : Eff Unit := pure ()

/-! ### SentryProvider (src/src/observability/sentry_provider.py) -/

/-- The instance state of a SentryProvider: the `_initialized` and
`_enabled` flags set in `__init__` and mutated by `initialize()`. -/
structure SentryState where
  inited : Bool
  enabled : Bool
  deriving DecidableEq

/-- SentryProvider._check_configuration: DSN present and nonblank after
strip().  Returns the boolean plus the warning it logs when absent. -/
def sentry_check_configuration (env : Env) : Bool × List LogEntry :=
  let dsn := pyStrip (env.getenvD "SENTRY_DSN" "")
  if dsn == "" then
    (false, [⟨.warning, "SENTRY_DSN not configured - Sentry will not be initialized"⟩])
  else (true, [])

/-- SentryProvider.__init__: `_initialized = False`,
`_enabled = _check_configuration()`, plus the info log. -/
def sentry_new (env : Env) : SentryState × List LogEntry :=
  let c := sentry_check_configuration env
  (⟨false, c.fst⟩,
   c.snd ++ [⟨.info, "SentryProvider initialized - enabled: " ++ pyStr (.vBool c.fst)⟩])

/-- SentryProvider._resolve_log_level: `getattr(logging, name, default)`
restricted to the logging module level constants (other module attributes
are not levels and are not reachable through documented configuration). -/
def sentry_resolve_log_level (value : String) (dflt : Nat) : Nat :=
  if value == "" then dflt
  else
    let ln := pyUpper (pyStrip value)
    if ln == "CRITICAL" then 50
    else if ln == "FATAL" then 50
    else if ln == "ERROR" then 40
    else if ln == "WARN" then 30
    else if ln == "WARNING" then 30
    else if ln == "INFO" then 20
    else if ln == "DEBUG" then 10
    else if ln == "NOTSET" then 0
    else dflt

/-- The try-block of SentryProvider.initialize(): import the SDK and its
integrations, read configuration (float() may raise ValueError), build the
init kwargs and call sentry_sdk.init, retrying without enable_logs when a
TypeError mentioning enable_logs is raised.  The send_default_pii / debug /
attach_stacktrace / max_breadcrumbs / profile_lifecycle / before_send
kwargs and the sample-rate percentage logs are elided: they are plain
pass-through data no claim observes. -/
def sentry_init_body (sdk : SdkOracle) (env : Env) : Eff Unit := do
  _ ← sdkDo sdk .import_sentry_sdk
  let dsn := env.getenv "SENTRY_DSN"
  let environment := env.getenvD "SENTRY_ENVIRONMENT" (env.getenvD "DD_ENV" "development")
  let release := env.getenvD "SENTRY_RELEASE" (env.getenvD "DD_VERSION" "1.0.0")
  let tracesRate ← liftE (pyFloat (env.getenvD "SENTRY_TRACES_SAMPLE_RATE" "1.0"))
  let profilesRate ← liftE (pyFloat (env.getenvD "SENTRY_PROFILES_SAMPLE_RATE" "0.0"))
  let enableLogs := pyLower (env.getenvD "SENTRY_ENABLE_LOGS" "true") == "true"
  let logBreadcrumbLevel := env.getenvD "SENTRY_LOG_BREADCRUMB_LEVEL" "info"
  let logEventLevel := env.getenvD "SENTRY_LOG_EVENT_LEVEL" "error"
  logE .info "Initializing Sentry SDK..."
  let bl := if enableLogs then some (sentry_resolve_log_level logBreadcrumbLevel 20) else none
  let el := if enableLogs then some (sentry_resolve_log_level logEventLevel 40) else none
  tryCatchE
    (sdkDoU sdk (.sdk_init enableLogs dsn environment release tracesRate profilesRate bl el))
    (fun e =>
      if e.kind == "TypeError" then
        if strContains e.msg "enable_logs" then do
          logE .warning "Current sentry-sdk version does not support enable_logs; retrying without it"
          sdkDoU sdk (.sdk_init false dsn environment release tracesRate profilesRate bl el)
        else raiseE e
      else raiseE e)
  logE .info ("Sentry initialized - env: " ++ environment ++ ", release: " ++ release)

/-- The outcome of the try/except of initialize() once the try-block has
run: on success mark the provider initialized; on ImportError or any
other exception, log and degrade the provider to not-enabled instead of
raising. -/
def sentry_init_finish (st : SentryState) (body : Eff Unit) :
    SentryState × Eff Unit :=
  match body.result with
  | .ok _ => ({ st with inited := true }, ⟨body.calls, body.logs, .ok ()⟩)
  | .error e =>
    if e.kind == "ImportError" then
      ({ st with enabled := false },
       ⟨body.calls,
        body.logs ++ [⟨.error, "Failed to import Sentry SDK: " ++ e.msg⟩,
          ⟨.error, "Install sentry-sdk: pip install sentry-sdk"⟩],
        .ok ()⟩)
    else
      ({ st with enabled := false },
       ⟨body.calls,
        body.logs ++ [⟨.error, "Failed to initialize Sentry: " ++ e.msg⟩],
        .ok ()⟩)

/-- SentryProvider.initialize(): already-initialized and not-enabled
fast paths, then the try-block with its ImportError / generic handlers. -/
def sentry_init (st : SentryState) (sdk : SdkOracle) (env : Env) :
    SentryState × Eff Unit :=
  if st.inited then
    (st, logE .warning "SentryProvider already initialized")
  else if !st.enabled then
    (st, logE .warning "Sentry not properly configured - skipping initialization")
  else
    sentry_init_finish st (sentry_init_body sdk env)

/-- SentryProvider.is_enabled: `_enabled and _initialized`. -/
def SentryState.is_enabled (st : SentryState) : Bool :=
  st.enabled && st.inited

/-- The tags loop of record_error: tuple-of-2 keys forward key[0] raw with
str(key[1]); every other key/value pair is stringified. -/
def sentry_set_tags_loop (sdk : SdkOracle) :
    List (PyVal × PyVal) → Eff Unit
  | [] => pure ()
  | (k, v) :: rest => do
    if isTuple2 k then
      sdkDoU sdk (.set_tag (tupleFst k) (.vStr (pyStr (tupleSnd k))))
    else
      sdkDoU sdk (.set_tag (.vStr (pyStr k)) (.vStr (pyStr v)))
    sentry_set_tags_loop sdk rest

/-- The try-block of SentryProvider.record_error. -/
def sentry_record_error_body (sdk : SdkOracle) (env : Env) (exc : PyVal)
    (errorType : Option String) (tags : Option (List (PyVal × PyVal)))
    (context : Option (List (PyVal × PyVal))) : Eff Unit := do
  _ ← sdkDo sdk .import_sentry_sdk
  -- `if error_type:` (Python truthiness: None and "" are falsy)
  match errorType with
  | some et =>
    if et != "" then sdkDoU sdk (.set_tag (.vStr "error_type") (.vStr et)) else pure ()
  | none => pure ()
  -- `if tags:` (None and an empty dict are falsy)
  match tags with
  | some ts => if !ts.isEmpty then sentry_set_tags_loop sdk ts else pure ()
  | none => pure ()
  -- `if context:`
  match context with
  | some ctx =>
    if !ctx.isEmpty then sdkDoU sdk (.set_context "additional_context" ctx) else pure ()
  | none => pure ()
  let service := env.getenvD "DD_SERVICE" "fastapi-app"
  let environment := env.getenvD "DD_ENV" "dev"
  let version := env.getenvD "DD_VERSION" "1.0"
  sdkDoU sdk (.set_tag (.vStr "service") (.vStr service))
  sdkDoU sdk (.set_tag (.vStr "environment") (.vStr environment))
  sdkDoU sdk (.set_tag (.vStr "version") (.vStr version))
  sdkDoU sdk (.capture_exception exc)
  logE .debug ("Recorded error in Sentry: " ++
    (match errorType with
     | some et => if et != "" then et else "unknown"
     | none => "unknown"))

/-- SentryProvider.record_error: early return when `_enabled` is false,
otherwise the try-block with the outermost except-and-log handler. -/
def sentry_record_error (st : SentryState) (sdk : SdkOracle) (env : Env)
    (exc : PyVal) (errorType : Option String)
    (tags : Option (List (PyVal × PyVal)))
    (context : Option (List (PyVal × PyVal))) : Eff Unit :=
  if !st.enabled then pure ()
  else
    tryCatchE (sentry_record_error_body sdk env exc errorType tags context)
      (fun e => logE .error ("Failed to record error in Sentry: " ++ e.msg))

/-- The level_map.get(alert_type, "info") mapping of record_event. -/
def sentry_level_map (alertType : String) : String :=
  if alertType == "info" then "info"
  else if alertType == "warning" then "warning"
  else if alertType == "error" then "error"
  else if alertType == "success" then "info"
  else "info"

/-- The try-block of SentryProvider.record_event: breadcrumb (plus a
captured message for error-level events). -/
def sentry_record_event_body (sdk : SdkOracle) (title text alertType : String)
    (tags : Option (List String)) (kwargs : List (String × PyVal)) : Eff Unit := do
  _ ← sdkDo sdk .import_sentry_sdk
  let level := sentry_level_map alertType
  let base : List (String × PyVal) := [("text", .vStr text)]
  -- `if tags:` (None and an empty list are falsy)
  let withTags := match tags with
    | some ts => if !ts.isEmpty then base ++ [("tags", .vList (ts.map PyVal.vStr))] else base
    | none => base
  let breadcrumbData := dictUpdateS withTags kwargs
  sdkDoU sdk (.add_breadcrumb "application.event" title level breadcrumbData)
  if alertType == "error" then
    sdkDoU sdk (.capture_message (title ++ ": " ++ text) "error" breadcrumbData)
  else pure ()
  logE .debug ("Recorded event in Sentry: " ++ title)

/-- SentryProvider.record_event: early return when `_enabled` is false,
otherwise the try-block with the outermost except-and-log handler. -/
def sentry_record_event (st : SentryState) (sdk : SdkOracle)
    (title text alertType : String) (tags : Option (List String))
    (kwargs : List (String × PyVal)) : Eff Unit :=
  if !st.enabled then pure ()
  else
    tryCatchE (sentry_record_event_body sdk title text alertType tags kwargs)
      (fun e => logE .error ("Failed to record event in Sentry: " ++ e.msg))

/-- SentryProvider.set_user_context: early return when `_enabled` is
false, otherwise build the user dict and set it, all inside the
outermost except-and-log handler. -/
def sentry_set_user_context (st : SentryState) (sdk : SdkOracle)
    (userId : String) (kwargs : List (String × PyVal)) : Eff Unit :=
  if !st.enabled then pure ()
  else
    tryCatchE
      (do
        _ ← sdkDo sdk .import_sentry_sdk
        let userData := dictUpdateS [("id", .vStr userId)] kwargs
        sdkDoU sdk (.set_user userData)
        logE .debug ("Set user context: " ++ userId))
      (fun e => logE .error ("Failed to set user context: " ++ e.msg))

/-- The tags loop of add_tags: both key and value stringified. -/
def sentry_add_tags_loop (sdk : SdkOracle) :
    List (PyVal × PyVal) → Eff Unit
  | [] => pure ()
  | (k, v) :: rest => do
    sdkDoU sdk (.set_tag (.vStr (pyStr k)) (.vStr (pyStr v)))
    sentry_add_tags_loop sdk rest

/-- SentryProvider.add_tags: early return when `_enabled` is false,
otherwise the loop inside the outermost except-and-log handler. -/
def sentry_add_tags (st : SentryState) (sdk : SdkOracle)
    (tags : List (PyVal × PyVal)) : Eff Unit :=
  if !st.enabled then pure ()
  else
    tryCatchE
      (do
        _ ← sdkDo sdk .import_sentry_sdk
        sentry_add_tags_loop sdk tags
        logE .debug ("Added " ++ toString tags.length ++ " tags"))
      (fun e => logE .error ("Failed to add tags: " ++ e.msg))

/-- A Python with-statement over sentry_sdk.start_span: enter the span,
run the body, and leave the span on every path; an exception raised while
leaving replaces the body outcome (standard with-statement semantics). -/
def withSpan {β : Type} (sdk : SdkOracle) (op : PyVal) (nm : String)
    (body : PyVal → Eff β) : Eff β :=
  let enter := sdkDo sdk (.start_span op nm)
  match enter.result with
  | .error e => ⟨enter.calls, enter.logs, .error e⟩
  | .ok sp =>
    let r := body sp
    let exitE := sdkDoU sdk .end_span
    ⟨enter.calls ++ r.calls ++ exitE.calls,
     enter.logs ++ r.logs ++ exitE.logs,
     match exitE.result with
     | .error e2 => .error e2
     | .ok _ => r.result⟩

/-- SentryProvider.trace_decorator(name, **kwargs) fused with the
application of the returned decorator to a function f: when `_enabled` is
false the function comes back untouched; otherwise the SDK is imported at
decoration time and the wrapper runs f inside a span. -/
def sentry_trace_decorator {α β : Type} (st : SentryState) (sdk : SdkOracle)
    (nm : String) (kwargs : List (String × PyVal)) (f : PyFun α β) :
    Eff (PyFun α β) :=
  if !st.enabled then pure f
  else do
    _ ← sdkDo sdk .import_sentry_sdk
    pure (fun x => withSpan sdk (kwargsGet kwargs "op" (.vStr "function")) nm (fun _ => f x))

/-- SentryProvider.trace_context(name, **kwargs): the with-block receives
the yielded value (None when `_enabled` is false, the span otherwise). -/
def sentry_trace_context {β : Type} (st : SentryState) (sdk : SdkOracle)
    (nm : String) (kwargs : List (String × PyVal))
    (block : Option PyVal → Eff β) : Eff β :=
  if !st.enabled then block none
  else do
    _ ← sdkDo sdk .import_sentry_sdk
    withSpan sdk (kwargsGet kwargs "op" (.vStr "function")) nm (fun sp => block (some sp))

/-- SentryProvider.name. -/
def sentry_name : String := "sentry"

/-! ### DatadogProvider

src/src/observability/__init__.py imports DatadogProvider from
`.datadog_provider`, but that file is not present in the source tree;
the parts of it the claims need are modelled from the spec. -/

/-- Modelled from the spec: the missing datadog_provider.py keeps the
same `_initialized` / `_enabled` lifecycle the contract prescribes
("is_enabled ... true only if configuration prerequisites were present
AND initialize() completed without error"); vendor-A has no hard
configuration prerequisite (its service/env/version variables all have
defaults), so a freshly constructed provider is enabled but not yet
initialized. -/
structure DatadogState where
  inited : Bool
  enabled : Bool
  deriving DecidableEq

/-- Modelled from the spec: DatadogProvider construction. -/
def datadog_new : DatadogState := ⟨false, true⟩

/-- Modelled from the spec: DatadogProvider.name is "datadog" (spec: for
provider name datadog, get_provider() returns an instance whose name
matches the expected identifier "datadog"). -/
def datadog_name : String := "datadog"

/-- Modelled from the spec: DatadogProvider.is_enabled per the shared
contract. -/
def DatadogState.is_enabled (st : DatadogState) : Bool :=
  st.enabled && st.inited

/-- Modelled from the spec: the body of DatadogProvider.record_error
"locates the currently active span (if any) and sets standardized error
tags (message, type, stack) plus service/environment/version tags sourced
from configuration, then mirrors the same data into any custom tags
supplied"; "if no span is active the tags are silently dropped". -/
def datadog_record_error_body (sdk : SdkOracle) (env : Env) (exc : PyVal)
    (errorType : Option String) (tags : Option (List (PyVal × PyVal))) :
    Eff Unit := do
  let sp ← sdkDo sdk .dd_current_span
  if !(sp == PyVal.vNone) then do
    sdkDoU sdk (.dd_span_set_tag (.vStr "error.message") (.vStr (pyStr exc)))
    (match errorType with
     | some et => sdkDoU sdk (.dd_span_set_tag (.vStr "error.type") (.vStr et))
     | none => pure ())
    sdkDoU sdk (.dd_span_set_tag (.vStr "service") (.vStr (env.getenvD "DD_SERVICE" "fastapi-app")))
    sdkDoU sdk (.dd_span_set_tag (.vStr "env") (.vStr (env.getenvD "DD_ENV" "dev")))
    sdkDoU sdk (.dd_span_set_tag (.vStr "version") (.vStr (env.getenvD "DD_VERSION" "1.0")))
    (match tags with
     | some ts => sentry_set_tags_loop_dd sdk ts
     | none => pure ())
  else pure ()
where
  sentry_set_tags_loop_dd (sdk : SdkOracle) : List (PyVal × PyVal) → Eff Unit
  | [] => pure ()
  | (k, v) :: rest => do
    sdkDoU sdk (.dd_span_set_tag k v)
    sentry_set_tags_loop_dd sdk rest

/-- Modelled from the spec: DatadogProvider.record_error with the
component-wide failure policy ("any error inside record_error ... is
caught at the outermost level of each call and logged"). -/
def datadog_record_error (st : DatadogState) (sdk : SdkOracle) (env : Env)
    (exc : PyVal) (errorType : Option String)
    (tags : Option (List (PyVal × PyVal)))
    (_context : Option (List (PyVal × PyVal))) : Eff Unit :=
  if !st.enabled then pure ()
  else
    tryCatchE (datadog_record_error_body sdk env exc errorType tags)
      (fun e => logE .error ("Failed to record error in Datadog: " ++ e.msg))

/-- Modelled from the spec: DatadogProvider.record_event "posts to a
hosted events API over HTTPS"; the delivery error policy of the component
catches and logs any failure at the outermost level of the call. -/
def datadog_record_event (st : DatadogState) (sdk : SdkOracle)
    (title text _alertType : String) (_tags : Option (List String))
    (_kwargs : List (String × PyVal)) : Eff Unit :=
  if !st.enabled then pure ()
  else
    tryCatchE (sdkDoU sdk (.dd_post_event title text))
      (fun e => logE .error ("Failed to record event in Datadog: " ++ e.msg))

/-- Modelled from the spec: DatadogProvider.set_user_context attaches
identity metadata, caught-and-logged at the outermost level. -/
def datadog_set_user_context (st : DatadogState) (sdk : SdkOracle)
    (userId : String) (kwargs : List (String × PyVal)) : Eff Unit :=
  if !st.enabled then pure ()
  else
    tryCatchE (sdkDoU sdk (.set_user (dictUpdateS [("id", .vStr userId)] kwargs)))
      (fun e => logE .error ("Failed to set user context in Datadog: " ++ e.msg))

/-- Modelled from the spec: DatadogProvider.add_tags attaches key/value
tags to the current trace scope, caught-and-logged at the outermost
level. -/
def datadog_add_tags (st : DatadogState) (sdk : SdkOracle)
    (tags : List (PyVal × PyVal)) : Eff Unit :=
  if !st.enabled then pure ()
  else
    tryCatchE (datadog_add_tags_loop sdk tags)
      (fun e => logE .error ("Failed to add tags in Datadog: " ++ e.msg))
where
  datadog_add_tags_loop (sdk : SdkOracle) : List (PyVal × PyVal) → Eff Unit
  | [] => pure ()
  | (k, v) :: rest => do
    sdkDoU sdk (.dd_span_set_tag k v)
    datadog_add_tags_loop sdk rest

/-! ### Provider factory (src/src/observability/__init__.py) -/

/-- The active provider reference: one of the three implementations with
its instance state. -/
inductive Provider where
  | datadog (st : DatadogState)
  | sentry (st : SentryState)
  | noop
  deriving DecidableEq

/-- The provider's name property, dispatched over the implementations. -/
def Provider.pname : Provider → String
  | .datadog _ => datadog_name
  | .sentry _ => sentry_name
  | .noop => noop_name

/-- The provider's is_enabled property, dispatched over the
implementations. -/
def Provider.enabledProp : Provider → Bool
  | .datadog st => st.is_enabled
  | .sentry st => st.is_enabled
  | .noop => noop_is_enabled

/-- get_provider(): the module-level singleton accessor.  The module
global `_provider_instance` is passed in and the updated global is
returned alongside the result and the log lines. -/
def get_provider (cache : Option Provider) (env : Env) :
    Provider × Option Provider × List LogEntry :=
  match cache with
  | some p => (p, some p, [])
  | none =>
    let provider_name := pyStrip (pyLower (env.getenvD "OBSERVABILITY_PROVIDER" "datadog"))
    let lg0 : List LogEntry := [⟨.info, "Initializing observability provider: " ++ provider_name⟩]
    let pick : Provider × List LogEntry :=
      if provider_name == "datadog" then (.datadog datadog_new, [])
      else if provider_name == "sentry" then
        let c := sentry_new env
        (.sentry c.fst, c.snd)
      else if provider_name == "disabled" || provider_name == "none" || provider_name == "noop" then
        (.noop, [⟨.info, "Observability explicitly disabled"⟩,
                 ⟨.info, "NoopProvider initialized - observability disabled"⟩])
      else
        (.datadog datadog_new,
         [⟨.warning, "Unknown OBSERVABILITY_PROVIDER: " ++ provider_name ++
            ", defaulting to Datadog. Valid options: datadog, sentry, disabled"⟩])
    let p := pick.fst
    (p, some p,
     lg0 ++ pick.snd ++
       [⟨.info, "Provider initialized: " ++ p.pname ++
          " (enabled: " ++ pyStr (.vBool p.enabledProp) ++ ")"⟩])

/-- reset_provider(): clears the module global (test-only). -/
def reset_provider (_cache : Option Provider) :
    Option Provider × List LogEntry :=
  (none, [⟨.warning, "Observability provider reset (should only be used in tests)"⟩])

/-! ### post_datadog_event (src/src/datadog.py, lines 180-238) -/

/-- The request body model DatadogEventRequest.  The pydantic defaults are
"info" / "normal" / "python" for the three optional strings; the handler
forwards whatever the fields hold. -/
structure DatadogEventRequest where
  title : String
  text : String
  alert_type : Option String
  priority : Option String
  tags : Option (List String)
  source_type_name : Option String
  aggregation_key : Option String
  deriving DecidableEq

/-- An Optional[str] as the JSON value it serializes to. -/
def optStrVal : Option String → PyVal
  | some s => .vStr s
  | none => .vNone

/-- The payload dict built by post_datadog_event: the five base fields,
then tags and aggregation_key only when truthy. -/
def dd_event_payload (r : DatadogEventRequest) : List (String × PyVal) :=
  let base : List (String × PyVal) :=
    [("title", .vStr r.title), ("text", .vStr r.text),
     ("alert_type", optStrVal r.alert_type), ("priority", optStrVal r.priority),
     ("source_type_name", optStrVal r.source_type_name)]
  -- `if request.tags:` (None and an empty list are falsy)
  let p1 := match r.tags with
    | some ts => if !ts.isEmpty then dictSetS base "tags" (.vList (ts.map PyVal.vStr)) else base
    | none => base
  -- `if request.aggregation_key:` (None and "" are falsy)
  match r.aggregation_key with
  | some k => if k != "" then dictSetS p1 "aggregation_key" (.vStr k) else p1
  | none => p1

/-- An httpx response as the handler inspects it: status code, body text,
and the outcome of response.json() (which raises on a non-JSON body). -/
structure HttpResponse where
  status_code : Nat
  text : String
  jsonBody : Except PyErr PyVal

/-- One HTTPS POST as issued by the handler. -/
structure HttpPost where
  url : String
  jsonPayload : List (String × PyVal)
  params : List (String × Option String)

/-- The network oracle: a POST may return a response or raise; errors of
kind "RequestError" stand for httpx.RequestError and its subclasses. -/
def HttpOracle : Type := HttpPost → Except PyErr HttpResponse

/-- What escapes the route handler: a FastAPI HTTPException. -/
inductive RouteExc where
  | httpException (status_code : Nat) (detail : String)
  deriving DecidableEq

/-- An exception in flight inside the handler's try-block: either an
ordinary Python exception or the HTTPException the handler itself raises
on a non-202 status. -/
inductive AttemptErr where
  | pyerr (e : PyErr)
  | httpExc (status_code : Nat) (detail : String)
  deriving DecidableEq

/-- Python str() of an in-flight exception; starlette's HTTPException
renders as "status_code: detail". -/
def attemptErrStr : AttemptErr → String
  | .pyerr e => e.msg
  | .httpExc s d => toString s ++ ": " ++ d

/-- The POST the handler assembles: the hosted events URL, the payload
dict, and API-key/application-key query parameters from the module-level
environment reads. -/
def ddPostOf (env : Env) (r : DatadogEventRequest) : HttpPost :=
  ⟨"https://api.datadoghq.com/api/v1/events", dd_event_payload r,
   [("api_key", env.getenv "DATADOG_API_KEY"),
    ("application_key", env.getenv "DATADOG_APP_KEY")]⟩

/-- The try-block of post_datadog_event: POST the payload, return
response.json() on a 202, and raise HTTPException (carrying the vendor
status and body) otherwise, logging the vendor error. -/
def post_event_attempt (http : HttpOracle) (env : Env)
    (r : DatadogEventRequest) : Except AttemptErr PyVal × List LogEntry :=
  match http (ddPostOf env r) with
  | .error e => (.error (.pyerr e), [])
  | .ok resp =>
    if resp.status_code == 202 then
      match resp.jsonBody with
      | .ok v => (.ok v, [])
      | .error e => (.error (.pyerr e), [])
    else
      (.error (.httpExc resp.status_code ("Datadog API error: " ++ resp.text)),
       [⟨.error, "Datadog API error: " ++ toString resp.status_code ++ " - " ++ resp.text⟩])

/-- post_datadog_event: the try-block above plus its two except handlers.
The HTTPException raised on a non-202 status is itself caught by the
generic `except Exception` of the same try and re-raised as a 500; httpx
request errors become a 500 through their own handler. -/
def post_datadog_event (http : HttpOracle) (env : Env)
    (r : DatadogEventRequest) : Except RouteExc PyVal × List LogEntry :=
  match post_event_attempt http env r with
  | (.ok v, lg) => (.ok v, lg)
  | (.error (.pyerr e), lg) =>
    if e.kind == "RequestError" then
      (.error (.httpException 500 ("Error sending event to Datadog: " ++ e.msg)),
       lg ++ [⟨.error, "Error sending event to Datadog: " ++ e.msg⟩])
    else
      (.error (.httpException 500 ("Server error: " ++ e.msg)),
       lg ++ [⟨.error, "Unexpected error in post_datadog_event: " ++ e.msg⟩])
  | (.error (.httpExc s d), lg) =>
    (.error (.httpException 500 ("Server error: " ++ attemptErrStr (.httpExc s d))),
     lg ++ [⟨.error, "Unexpected error in post_datadog_event: " ++ attemptErrStr (.httpExc s d)⟩])

/-! ### CustomError (src/main.py, lines 57-95) -/

/-- The attributes CustomError.__init__ stores on the exception object. -/
structure CustomErrorObj where
  message : String
  error_type : String
  tags : List PyVal

/-- Python dict assignment on an insertion-ordered PyVal-keyed dict. -/
def dictSetP (d : List (PyVal × PyVal)) (k v : PyVal) : List (PyVal × PyVal) :=
  if d.any (fun p => p.fst == k) then
    d.map (fun p => if p.fst == k then (k, v) else p)
  else d ++ [(k, v)]

/-- The tags-to-dict loop of CustomError.__init__: 2-tuples become
key/value entries, strings map to True, anything else is skipped. -/
def custom_error_tags_dict : List PyVal → List (PyVal × PyVal) → List (PyVal × PyVal)
  | [], acc => acc
  | t :: rest, acc =>
    let acc2 :=
      if isTuple2 t then dictSetP acc (tupleFst t) (tupleSnd t)
      else match t with
        | .vStr s => dictSetP acc (.vStr s) (.vBool true)
        | _ => acc
    custom_error_tags_dict rest acc2

/-- record_error dispatched over the active provider. -/
def Provider.recordError (p : Provider) (sdk : SdkOracle) (env : Env)
    (exc : PyVal) (errorType : Option String)
    (tags : Option (List (PyVal × PyVal)))
    (context : Option (List (PyVal × PyVal))) : Eff Unit :=
  match p with
  | .noop => noop_record_error exc errorType tags context
  | .sentry st => sentry_record_error st sdk env exc errorType tags context
  | .datadog st => datadog_record_error st sdk env exc errorType tags context

/-- The tail of CustomError.__init__: the constructed object is returned
whether the telemetry attempt succeeded or was caught and logged by the
fallback handler. -/
def custom_error_finish (obj : CustomErrorObj) (message : String)
    (telemetry : Eff Unit) : Except PyErr CustomErrorObj × List LogEntry :=
  match telemetry.result with
  | .ok _ => (.ok obj, telemetry.logs)
  | .error e =>
    (.ok obj, telemetry.logs ++
      [⟨.error, "Failed to record CustomError: " ++ e.msg⟩,
       ⟨.error, "Original error: " ++ message⟩])

/-- CustomError.__init__(message, error_type=None, tags=None): store the
attributes (with `or`-defaults), then attempt telemetry inside a
try/except that falls back to logging.  `getProv` is the outcome of the
runtime `from src.observability import get_provider` plus the
get_provider() call, which the try-block also protects; the recorded
exception object is represented by its message string. -/
def custom_error_init (getProv : Except PyErr Provider) (sdk : SdkOracle)
    (env : Env) (message : String) (errorType : Option String)
    (tags : Option (List PyVal)) :
    Except PyErr CustomErrorObj × List LogEntry :=
  -- `self.error_type = error_type or "application_error"`
  let et := match errorType with
    | some s => if s != "" then s else "application_error"
    | none => "application_error"
  -- `self.tags = tags or []`
  let tg := tags.getD []
  let obj : CustomErrorObj := ⟨message, et, tg⟩
  let telemetry : Eff Unit :=
    match getProv with
    | .error e => raiseE e
    | .ok p =>
      if p.enabledProp then do
        let tagsDict := custom_error_tags_dict tg []
        Provider.recordError p sdk env (.vStr message) (some et) (some tagsDict) none
        logE .error ("CustomError Recorded: " ++ message)
      else logE .error ("CustomError (observability disabled): " ++ message)
  custom_error_finish obj message telemetry

/-! ### Concrete fixtures used by witnesses and counterexamples -/

/-- An SDK oracle on which every vendor call succeeds. -/
def okSdk : SdkOracle := fun _ => .ok PyVal.vNone

/-- An SDK oracle on which every vendor call raises ImportError, as when
the vendor package is not installed. -/
def failSdk : SdkOracle := fun _ => .error ⟨"ImportError", "No module named sentry_sdk"⟩

/-- An environment with a Sentry DSN configured. -/
def sentryDsnEnv : Env := [("SENTRY_DSN", "https://key@example.ingest.sentry.io/1")]

/-- A one-argument Python function used as decoration subject. -/
def cexFun : PyFun Unit PyVal := fun _ => pure PyVal.vNone

/-- A with-block that reports whether trace_context yielded None or a
span. -/
def probeBlock : Option PyVal → Eff PyVal := fun sp =>
  match sp with
  | none => pure (PyVal.vStr "yielded-none")
  | some _ => pure (PyVal.vStr "yielded-span")

/-- A network oracle that always answers 404 with a non-JSON body. -/
def http404 : HttpOracle := fun _ =>
  .ok ⟨404, "not found", .error ⟨"JSONDecodeError", "Expecting value"⟩⟩

/-- A minimal concrete event request. -/
def sampleEventReq : DatadogEventRequest :=
  ⟨"deploy", "v1 released", some "info", some "normal", none, some "python", none⟩

/-! ### Helper lemmas about the effect monad -/

/-- A try/except whose handler only logs always completes normally. -/
theorem tryCatchE_log_result (x : Eff Unit) (lv : LogLevel) (f : PyErr → String) :
    (tryCatchE x (fun e => logE lv (f e))).result = Except.ok () := by
  unfold tryCatchE
  cases hx : x.result with
  | error e => simp [logE]
  | ok a => simp [hx]

/-- A disabled-guarded try/except-and-log call always completes
normally. -/
theorem guard_tryCatch_log_result (b : Bool) (x : Eff Unit) (lv : LogLevel)
    (f : PyErr → String) :
    ((if b then pure () else tryCatchE x (fun e => logE lv (f e))) : Eff Unit).result
      = Except.ok () := by
  cases b
  · simpa using tryCatchE_log_result x lv f
  · rfl

/-- When the protected block raises, the except-and-log handler appends
exactly its log line. -/
theorem tryCatchE_log_logs (x : Eff Unit) (lv : LogLevel) (f : PyErr → String)
    (e : PyErr) (hx : x.result = .error e) :
    (tryCatchE x (fun e => logE lv (f e))).logs = x.logs ++ [⟨lv, f e⟩] := by
  unfold tryCatchE
  rw [hx]
  rfl

/-! ### Claim theorems -/

/-- C4: for the NoopProvider, is_enabled is always False, and every
interface method is a pure no-op: initialize, record_error, record_event,
set_user_context and add_tags are exactly `pure ()` (no exception, no SDK
call, no log line, returns None), trace_decorator returns its argument
unchanged, and trace_context runs the with-block on the yielded value
None and nothing else. -/
theorem claim_C4_noop_provider_pure_noop :
    noop_is_enabled = false ∧
    noop_init = (pure () : Eff Unit) ∧
    (∀ (α β : Type) (nm : String) (kw : List (String × PyVal)) (f : PyFun α β),
      noop_trace_decorator nm kw f = f) ∧
    (∀ (β : Type) (nm : String) (kw : List (String × PyVal))
        (block : Option PyVal → Eff β),
      noop_trace_context nm kw block = block none) ∧
    (∀ exc et tags ctx, noop_record_error exc et tags ctx = (pure () : Eff Unit)) ∧
    (∀ title text alertType tags kw,
      noop_record_event title text alertType tags kw = (pure () : Eff Unit)) ∧
    (∀ uid kw, noop_set_user_context uid kw = (pure () : Eff Unit)) ∧
    (∀ tags, noop_add_tags tags = (pure () : Eff Unit)) := by
  refine ⟨rfl, rfl, ?_, ?_, ?_, ?_, ?_, ?_⟩ <;> intros <;> rfl

/-- C2: get_provider is a process-wide singleton: a first call stores
exactly the instance it returns in the module global, any call with a
cached instance returns that identical instance (and constructs nothing,
whatever the environment now says), and for each of the recognized
configuration values datadog / sentry / disabled / none / noop the
returned instance's name is the expected identifier. -/
theorem claim_C2_singleton_and_names :
    (∀ env : Env, (get_provider none env).2.1 = some (get_provider none env).1) ∧
    (∀ (p : Provider) (env : Env), get_provider (some p) env = (p, some p, [])) ∧
    (∀ env : Env,
      ((get_provider none (("OBSERVABILITY_PROVIDER", "datadog") :: env)).1).pname = "datadog") ∧
    (∀ env : Env,
      ((get_provider none (("OBSERVABILITY_PROVIDER", "sentry") :: env)).1).pname = "sentry") ∧
    (∀ env : Env,
      ((get_provider none (("OBSERVABILITY_PROVIDER", "disabled") :: env)).1).pname = "noop") ∧
    (∀ env : Env,
      ((get_provider none (("OBSERVABILITY_PROVIDER", "none") :: env)).1).pname = "noop") ∧
    (∀ env : Env,
      ((get_provider none (("OBSERVABILITY_PROVIDER", "noop") :: env)).1).pname = "noop") := by
  refine ⟨?_, ?_, ?_, ?_, ?_, ?_, ?_⟩ <;> intros <;> rfl

/-- C6 counterexample: the claim quantifies over every provider with
is_enabled False, but SentryProvider.trace_decorator branches on the
internal `_enabled` flag alone.  A provider constructed with a DSN but
never initialized has is_enabled False yet takes the enabled path: with
the vendor SDK missing, applying trace_decorator raises ImportError at
decoration time instead of returning a function that behaves like the
input. -/
theorem claim_C6_counterexample :
    SentryState.is_enabled (sentry_new sentryDsnEnv).1 = false ∧
    (sentry_trace_decorator (sentry_new sentryDsnEnv).1 failSdk "api.handler" [] cexFun).result
      = Except.error ⟨"ImportError", "No module named sentry_sdk"⟩ := by
  exact ⟨rfl, rfl⟩

/-- C6 (amended): for every function f, trace_decorator of the
NoopProvider, or of a SentryProvider whose internal `_enabled` flag is
false (DSN absent at construction, or initialization failed), returns f
itself — decoration succeeds with no SDK interaction and the decorated
function has behavior identical to f by construction. -/
theorem claim_C6_disabled_decorator_identity :
    (∀ (α β : Type) (nm : String) (kw : List (String × PyVal)) (f : PyFun α β),
      noop_trace_decorator nm kw f = f) ∧
    (∀ (α β : Type) (i : Bool) (sdk : SdkOracle) (nm : String)
        (kw : List (String × PyVal)) (f : PyFun α β),
      sentry_trace_decorator ⟨i, false⟩ sdk nm kw f = pure f) := by
  refine ⟨?_, ?_⟩ <;> intros <;> rfl

/-- C7 counterexample: the claim quantifies over every provider with
is_enabled False, but SentryProvider.trace_context branches on the
internal `_enabled` flag alone.  A provider constructed with a DSN but
never initialized has is_enabled False, yet entering trace_context
yields a span object (not None) when the SDK calls succeed. -/
theorem claim_C7_counterexample :
    SentryState.is_enabled (sentry_new sentryDsnEnv).1 = false ∧
    (sentry_trace_context (sentry_new sentryDsnEnv).1 okSdk "db.query" [] probeBlock).result
      = Except.ok (PyVal.vStr "yielded-span") := by
  exact ⟨rfl, rfl⟩

/-- C7 (amended): entering trace_context of the NoopProvider, or of a
SentryProvider whose internal `_enabled` flag is false, yields None and
adds no effect of its own: the whole construct is exactly the with-block
applied to None, so the block's value comes back unchanged and an
exception raised by the block propagates unchanged while the context
still exits cleanly. -/
theorem claim_C7_disabled_context_yields_none :
    (∀ (β : Type) (nm : String) (kw : List (String × PyVal))
        (block : Option PyVal → Eff β),
      noop_trace_context nm kw block = block none) ∧
    (∀ (β : Type) (i : Bool) (sdk : SdkOracle) (nm : String)
        (kw : List (String × PyVal)) (block : Option PyVal → Eff β),
      sentry_trace_context ⟨i, false⟩ sdk nm kw block = block none) := by
  refine ⟨?_, ?_⟩ <;> intros <;> rfl

/-- C1: for every provider implementation (noop, sentry, and the
spec-modelled datadog) and every input — any state, any environment, any
tags dict including tuple or non-string keys, and any vendor-SDK oracle
including one whose import or calls fail — record_error, record_event,
set_user_context and add_tags complete normally (return None, never
propagate an exception).  The final clause shows the catch is at the
outermost level and logs the failure: when the enabled-path body of
sentry_record_error raises, the call's log is the body's log plus
exactly the except-handler's error line. -/
theorem claim_C1_telemetry_never_raises :
    (∀ exc et tags ctx, (noop_record_error exc et tags ctx).result = Except.ok ()) ∧
    (∀ title text alertType tags kw,
      (noop_record_event title text alertType tags kw).result = Except.ok ()) ∧
    (∀ uid kw, (noop_set_user_context uid kw).result = Except.ok ()) ∧
    (∀ tags, (noop_add_tags tags).result = Except.ok ()) ∧
    (∀ st sdk env exc et tags ctx,
      (sentry_record_error st sdk env exc et tags ctx).result = Except.ok ()) ∧
    (∀ st sdk title text alertType tags kw,
      (sentry_record_event st sdk title text alertType tags kw).result = Except.ok ()) ∧
    (∀ st sdk uid kw, (sentry_set_user_context st sdk uid kw).result = Except.ok ()) ∧
    (∀ st sdk tags, (sentry_add_tags st sdk tags).result = Except.ok ()) ∧
    (∀ st sdk env exc et tags ctx,
      (datadog_record_error st sdk env exc et tags ctx).result = Except.ok ()) ∧
    (∀ st sdk title text alertType tags kw,
      (datadog_record_event st sdk title text alertType tags kw).result = Except.ok ()) ∧
    (∀ st sdk uid kw, (datadog_set_user_context st sdk uid kw).result = Except.ok ()) ∧
    (∀ st sdk tags, (datadog_add_tags st sdk tags).result = Except.ok ()) ∧
    (∀ (i : Bool) sdk env exc et tags ctx (e : PyErr),
      (sentry_record_error_body sdk env exc et tags ctx).result = Except.error e →
      (sentry_record_error ⟨i, true⟩ sdk env exc et tags ctx).logs =
        (sentry_record_error_body sdk env exc et tags ctx).logs ++
          [⟨.error, "Failed to record error in Sentry: " ++ e.msg⟩]) := by
  refine ⟨?_, ?_, ?_, ?_, ?_, ?_, ?_, ?_, ?_, ?_, ?_, ?_, ?_⟩
  · intros; rfl
  · intros; rfl
  · intros; rfl
  · intros; rfl
  · intro st sdk env exc et tags ctx
    exact guard_tryCatch_log_result (!st.enabled) _ LogLevel.error
      (fun e => "Failed to record error in Sentry: " ++ e.msg)
  · intro st sdk title text alertType tags kw
    exact guard_tryCatch_log_result (!st.enabled) _ LogLevel.error
      (fun e => "Failed to record event in Sentry: " ++ e.msg)
  · intro st sdk uid kw
    exact guard_tryCatch_log_result (!st.enabled) _ LogLevel.error
      (fun e => "Failed to set user context: " ++ e.msg)
  · intro st sdk tags
    exact guard_tryCatch_log_result (!st.enabled) _ LogLevel.error
      (fun e => "Failed to add tags: " ++ e.msg)
  · intro st sdk env exc et tags ctx
    exact guard_tryCatch_log_result (!st.enabled) _ LogLevel.error
      (fun e => "Failed to record error in Datadog: " ++ e.msg)
  · intro st sdk title text alertType tags kw
    exact guard_tryCatch_log_result (!st.enabled) _ LogLevel.error
      (fun e => "Failed to record event in Datadog: " ++ e.msg)
  · intro st sdk uid kw
    exact guard_tryCatch_log_result (!st.enabled) _ LogLevel.error
      (fun e => "Failed to set user context in Datadog: " ++ e.msg)
  · intro st sdk tags
    exact guard_tryCatch_log_result (!st.enabled) _ LogLevel.error
      (fun e => "Failed to add tags in Datadog: " ++ e.msg)
  · intro i sdk env exc et tags ctx e he
    exact tryCatchE_log_logs _ _ _ e he

/-- C3: when OBSERVABILITY_PROVIDER is unset, get_provider constructs the
default Datadog implementation; when it holds any value whose lowercased
and stripped form is none of datadog / sentry / disabled / none / noop,
get_provider constructs the Datadog implementation and a warning naming
the unrecognized value is among the emitted log lines. -/
theorem claim_C3_unrecognized_defaults_to_datadog :
    (∀ env : Env, env.getenv "OBSERVABILITY_PROVIDER" = none →
      (get_provider none env).1 = Provider.datadog datadog_new) ∧
    (∀ (v : String) (env : Env),
      pyStrip (pyLower v) ≠ "datadog" → pyStrip (pyLower v) ≠ "sentry" →
      pyStrip (pyLower v) ≠ "disabled" → pyStrip (pyLower v) ≠ "none" →
      pyStrip (pyLower v) ≠ "noop" →
      (get_provider none (("OBSERVABILITY_PROVIDER", v) :: env)).1
          = Provider.datadog datadog_new ∧
      (⟨.warning, "Unknown OBSERVABILITY_PROVIDER: " ++ pyStrip (pyLower v) ++
          ", defaulting to Datadog. Valid options: datadog, sentry, disabled"⟩ : LogEntry) ∈
        (get_provider none (("OBSERVABILITY_PROVIDER", v) :: env)).2.2) := by
  constructor
  · intro env h
    unfold get_provider Env.getenvD
    rw [h]
    rfl
  · intro v env h1 h2 h3 h4 h5
    have hfind : Env.getenv (("OBSERVABILITY_PROVIDER", v) :: env) "OBSERVABILITY_PROVIDER"
        = some v := by
      unfold Env.getenv
      simp [List.find?]
    have e1 : (pyStrip (pyLower v) == "datadog") = false := beq_eq_false_iff_ne.mpr h1
    have e2 : (pyStrip (pyLower v) == "sentry") = false := beq_eq_false_iff_ne.mpr h2
    have e3 : (pyStrip (pyLower v) == "disabled") = false := beq_eq_false_iff_ne.mpr h3
    have e4 : (pyStrip (pyLower v) == "none") = false := beq_eq_false_iff_ne.mpr h4
    have e5 : (pyStrip (pyLower v) == "noop") = false := beq_eq_false_iff_ne.mpr h5
    unfold get_provider Env.getenvD
    rw [hfind]
    simp [e1, e2, e3, e4, e5]

/-- C3 witness: the empty environment (variable unset) yields the
Datadog provider; the unrecognized value "Honeycomb " yields the Datadog
provider with the warning logged. -/
theorem claim_C3_witness :
    (get_provider none ([] : Env)).1 = Provider.datadog datadog_new ∧
    ((get_provider none (("OBSERVABILITY_PROVIDER", "Honeycomb ") :: ([] : Env))).1
        = Provider.datadog datadog_new ∧
      (⟨.warning, "Unknown OBSERVABILITY_PROVIDER: " ++ pyStrip (pyLower "Honeycomb ") ++
          ", defaulting to Datadog. Valid options: datadog, sentry, disabled"⟩ : LogEntry) ∈
        (get_provider none (("OBSERVABILITY_PROVIDER", "Honeycomb ") :: ([] : Env))).2.2) :=
  ⟨claim_C3_unrecognized_defaults_to_datadog.1 [] rfl,
   claim_C3_unrecognized_defaults_to_datadog.2 "Honeycomb " []
     (by decide) (by decide) (by decide) (by decide) (by decide)⟩

/-- C9: get_provider matches the OBSERVABILITY_PROVIDER value after
lowercasing and stripping surrounding whitespace, so two configuration
values with the same normalized form (e.g. differing only in ASCII case
or leading/trailing whitespace) select the same provider instance. -/
theorem claim_C9_normalized_selection (v w : String) (env : Env)
    (h : pyStrip (pyLower v) = pyStrip (pyLower w)) :
    (get_provider none (("OBSERVABILITY_PROVIDER", v) :: env)).1 =
      (get_provider none (("OBSERVABILITY_PROVIDER", w) :: env)).1 := by
  have hv : Env.getenv (("OBSERVABILITY_PROVIDER", v) :: env) "OBSERVABILITY_PROVIDER"
      = some v := by
    unfold Env.getenv
    simp [List.find?]
  have hw : Env.getenv (("OBSERVABILITY_PROVIDER", w) :: env) "OBSERVABILITY_PROVIDER"
      = some w := by
    unfold Env.getenv
    simp [List.find?]
  have hsdsn : Env.getenv (("OBSERVABILITY_PROVIDER", v) :: env) "SENTRY_DSN"
      = Env.getenv (("OBSERVABILITY_PROVIDER", w) :: env) "SENTRY_DSN" := by
    unfold Env.getenv
    simp [List.find?]
  have hs : sentry_new (("OBSERVABILITY_PROVIDER", v) :: env)
      = sentry_new (("OBSERVABILITY_PROVIDER", w) :: env) := by
    unfold sentry_new sentry_check_configuration Env.getenvD
    rw [hsdsn]
  unfold get_provider Env.getenvD
  rw [hv, hw]
  simp only [Option.getD_some, h, hs]

/-- C9 witness: " SENTRY " and "sentry" select the same provider. -/
theorem claim_C9_witness :
    (get_provider none (("OBSERVABILITY_PROVIDER", " SENTRY ") :: ([] : Env))).1 =
      (get_provider none (("OBSERVABILITY_PROVIDER", "sentry") :: ([] : Env))).1 :=
  claim_C9_normalized_selection " SENTRY " "sentry" [] (by decide)

/-- The state an enabled, not-yet-initialized SentryProvider ends up in
after initialize(): fully enabled when the body succeeded, degraded to
not-enabled when it raised. -/
theorem sentry_init_enabled_state (sdk : SdkOracle) (env : Env) :
    (sentry_init ⟨false, true⟩ sdk env).1 =
      (match (sentry_init_body sdk env).result with
       | .ok _ => (⟨true, true⟩ : SentryState)
       | .error _ => (⟨false, false⟩ : SentryState)) := by
  show (sentry_init_finish ⟨false, true⟩ (sentry_init_body sdk env)).1 = _
  unfold sentry_init_finish
  cases hb : (sentry_init_body sdk env).result with
  | ok a => rfl
  | error e => split <;> first | rfl | (split <;> rfl)

/-- C5: is_enabled of a SentryProvider is true exactly when the DSN
prerequisite was present at construction and the initialize() body
completed without error; and with no DSN configured, initialize()
returns normally, the state is unchanged with is_enabled False, and no
SDK call at all is made (no import, no setup). -/
theorem claim_C5_sentry_enabled_iff (env : Env) (sdk : SdkOracle) :
    (SentryState.is_enabled (sentry_init (sentry_new env).1 sdk env).1 = true ↔
      ((sentry_check_configuration env).1 = true ∧
        (sentry_init_body sdk env).result = Except.ok ())) ∧
    ((sentry_check_configuration env).1 = false →
      (sentry_init (sentry_new env).1 sdk env).1 = (sentry_new env).1 ∧
      SentryState.is_enabled (sentry_new env).1 = false ∧
      ((sentry_init (sentry_new env).1 sdk env).2).calls = [] ∧
      ((sentry_init (sentry_new env).1 sdk env).2).result = Except.ok ()) := by
  have hst0 : (sentry_new env).1 = (⟨false, (sentry_check_configuration env).1⟩ : SentryState) := rfl
  rw [hst0]
  cases hc : (sentry_check_configuration env).1 with
  | false =>
    refine ⟨?_, fun _ => ⟨rfl, rfl, rfl, rfl⟩⟩
    simp [sentry_init, SentryState.is_enabled]
  | true =>
    refine ⟨?_, fun hcontra => by simp at hcontra⟩
    rw [sentry_init_enabled_state sdk env]
    cases hb : (sentry_init_body sdk env).result with
    | ok a => simp [SentryState.is_enabled]
    | error e => simp [SentryState.is_enabled]

/-- C5 witness: with the empty environment (no SENTRY_DSN), initialize()
returns normally, changes nothing, makes no SDK call, and the provider
stays not-enabled. -/
theorem claim_C5_witness :
    (sentry_check_configuration ([] : Env)).1 = false ∧
    ((sentry_init (sentry_new ([] : Env)).1 okSdk ([] : Env)).1 = (sentry_new ([] : Env)).1 ∧
      SentryState.is_enabled (sentry_new ([] : Env)).1 = false ∧
      ((sentry_init (sentry_new ([] : Env)).1 okSdk ([] : Env)).2).calls = [] ∧
      ((sentry_init (sentry_new ([] : Env)).1 okSdk ([] : Env)).2).result = Except.ok ()) :=
  ⟨rfl, (claim_C5_sentry_enabled_iff [] okSdk).2 rfl⟩

/-- C1 witness: with the vendor SDK missing (failSdk), the enabled-path
body of record_error raises ImportError, yet the call's log is the
body's log plus exactly the except-handler's error line (and by the main
theorem the call still returns normally). -/
theorem claim_C1_witness :
    (sentry_record_error_body failSdk [] PyVal.vNone none none none).result
        = Except.error ⟨"ImportError", "No module named sentry_sdk"⟩ ∧
    (sentry_record_error ⟨false, true⟩ failSdk [] PyVal.vNone none none none).logs =
      (sentry_record_error_body failSdk [] PyVal.vNone none none none).logs ++
        [⟨.error, "Failed to record error in Sentry: No module named sentry_sdk"⟩] :=
  ⟨rfl,
   claim_C1_telemetry_never_raises.2.2.2.2.2.2.2.2.2.2.2.2 false failSdk []
     PyVal.vNone none none none ⟨"ImportError", "No module named sentry_sdk"⟩ rfl⟩

/-- The constructed object always comes back, whatever the telemetry
attempt did. -/
theorem custom_error_finish_fst (obj : CustomErrorObj) (message : String)
    (t : Eff Unit) :
    (custom_error_finish obj message t).1 = Except.ok obj := by
  unfold custom_error_finish
  cases ht : t.result <;> rfl

/-- C10: constructing a CustomError never raises: for every provider
lookup outcome (including a failed import), every SDK oracle and every
input, __init__ returns the object carrying the message, the error_type
with its application_error default, and the tags list with its [] default;
and when the provider lookup fails, the failure is caught and the two
fallback log lines are emitted instead. -/
theorem claim_C10_custom_error_never_raises :
    (∀ (getProv : Except PyErr Provider) (sdk : SdkOracle) (env : Env)
        (message : String) (errorType : Option String) (tags : Option (List PyVal)),
      (custom_error_init getProv sdk env message errorType tags).1 =
        Except.ok ⟨message,
          (match errorType with
           | some s => if s != "" then s else "application_error"
           | none => "application_error"),
          tags.getD []⟩) ∧
    (∀ (sdk : SdkOracle) (env : Env) (message : String)
        (errorType : Option String) (tags : Option (List PyVal)) (e : PyErr),
      (custom_error_init (Except.error e) sdk env message errorType tags).2 =
        [⟨.error, "Failed to record CustomError: " ++ e.msg⟩,
         ⟨.error, "Original error: " ++ message⟩]) := by
  constructor
  · intro getProv sdk env message errorType tags
    exact custom_error_finish_fst _ _ _
  · intro sdk env message errorType tags e
    rfl

/-- C8: when the events POST comes back with a non-2xx status,
post_datadog_event raises an HTTPException (a reported error, never a
silently-swallowed success) and logs an error line; and a response body
is returned as the success result only when the response had status 202
(a successful status) and its body parsed as JSON. -/
theorem claim_C8_non2xx_is_reported (http : HttpOracle) (env : Env)
    (r : DatadogEventRequest) :
    (∀ resp : HttpResponse, http (ddPostOf env r) = Except.ok resp →
      ¬(200 ≤ resp.status_code ∧ resp.status_code < 300) →
      (∃ s d, (post_datadog_event http env r).1 = Except.error (.httpException s d)) ∧
      (∃ entry, entry ∈ (post_datadog_event http env r).2 ∧
        entry.level = LogLevel.error)) ∧
    (∀ v : PyVal, (post_datadog_event http env r).1 = Except.ok v →
      ∃ resp : HttpResponse, http (ddPostOf env r) = Except.ok resp ∧
        resp.status_code = 202 ∧ resp.jsonBody = Except.ok v) := by
  constructor
  · intro resp hresp hn
    have hne : resp.status_code ≠ 202 := by
      intro he
      exact hn (by rw [he]; exact ⟨by norm_num, by norm_num⟩)
    have h202 : (resp.status_code == 202) = false := beq_eq_false_iff_ne.mpr hne
    have hatt : post_event_attempt http env r =
        (.error (.httpExc resp.status_code ("Datadog API error: " ++ resp.text)),
         [⟨.error, "Datadog API error: " ++ toString resp.status_code ++ " - " ++ resp.text⟩]) := by
      unfold post_event_attempt
      rw [hresp]
      simp [h202]
    unfold post_datadog_event
    rw [hatt]
    refine ⟨⟨500, _, rfl⟩,
      ⟨⟨.error, "Datadog API error: " ++ toString resp.status_code ++ " - " ++ resp.text⟩,
        ?_, rfl⟩⟩
    simp
  · intro v hok
    unfold post_datadog_event at hok
    cases hhttp : http (ddPostOf env r) with
    | error e =>
      have hatt : post_event_attempt http env r = (.error (.pyerr e), []) := by
        unfold post_event_attempt
        rw [hhttp]
      rw [hatt] at hok
      split at hok
      all_goals try split at hok
      all_goals simp_all
    | ok resp =>
      by_cases h202 : (resp.status_code == 202) = true
      · cases hjson : resp.jsonBody with
        | ok u =>
          have hatt : post_event_attempt http env r = (.ok u, []) := by
            unfold post_event_attempt
            rw [hhttp]
            simp [h202, hjson]
          rw [hatt] at hok
          simp at hok
          exact ⟨resp, rfl, by simpa using h202, by rw [hjson, hok]⟩
        | error ejson =>
          have hatt : post_event_attempt http env r = (.error (.pyerr ejson), []) := by
            unfold post_event_attempt
            rw [hhttp]
            simp [h202, hjson]
          rw [hatt] at hok
          split at hok
          all_goals try split at hok
          all_goals simp_all
      · have hf : (resp.status_code == 202) = false := by simpa using h202
        have hatt : post_event_attempt http env r =
            (.error (.httpExc resp.status_code ("Datadog API error: " ++ resp.text)),
             [⟨.error, "Datadog API error: " ++ toString resp.status_code ++ " - " ++ resp.text⟩]) := by
          unfold post_event_attempt
          rw [hhttp]
          simp [hf]
        rw [hatt] at hok
        simp at hok

/-- C8 witness: a 404 with a non-JSON body yields an HTTPException and an
error log line. -/
theorem claim_C8_witness :
    http404 (ddPostOf [] sampleEventReq)
        = Except.ok ⟨404, "not found", Except.error ⟨"JSONDecodeError", "Expecting value"⟩⟩ ∧
    ¬(200 ≤ 404 ∧ 404 < 300) ∧
    ((∃ s d, (post_datadog_event http404 [] sampleEventReq).1
        = Except.error (.httpException s d)) ∧
     (∃ entry, entry ∈ (post_datadog_event http404 [] sampleEventReq).2 ∧
        entry.level = LogLevel.error)) :=
  ⟨rfl, by decide,
   (claim_C8_non2xx_is_reported http404 [] sampleEventReq).1
     ⟨404, "not found", Except.error ⟨"JSONDecodeError", "Expecting value"⟩⟩ rfl (by decide)⟩

end DemoFastapi
